import Mathlib

/-!
# Verification of the volatility-adaptive event-backtesting engine

Shallow embedding, over `ℚ`, of the core of the `stock_python_tw`
repository: the dynamic threshold calculator (`dynamic_threshold.py`),
the calendar-aligned event labeler / trade simulators
(`backtest_dynamic.py`, `strategy_stats.py`, `screen_top_stocks.py`),
the per-regime aggregator (`stats`), and the recommendation synthesizer
(`get_recommendations`, `get_top20_recommendations_10d`).

Python floats are modelled as exact rationals; a possibly-NaN float is
modelled as `Option ℚ` with `none` for NaN.  Date-indexed pandas frames
are modelled as total functions from a date key (`ℕ`) to the row's
fields, together with the sorted aligned calendar `common : List ℕ`
produced by the index intersection.  Instrument names are modelled as
numeric identifiers.
-/

namespace StockTW

/-- Module-level calibration constant `BASE_LOW = 0.7`. -/
def BASE_LOW : ℚ := 0.7

/-- Module-level calibration constant `BASE_HIGH = 1.8`. -/
def BASE_HIGH : ℚ := 1.8

/-- Module-level calibration constant `VOL_LOW = 0.6`. -/
def VOL_LOW : ℚ := 0.6

/-- Module-level calibration constant `VOL_HIGH = 1.4`. -/
def VOL_HIGH : ℚ := 1.4

/-- Tie-break constant `RET_DIFF_THRESHOLD = 0.5` (`strategy_stats.py`
line 67, `screen_top_stocks.py` line 390). -/
def RET_DIFF_THRESHOLD : ℚ := 0.5

/-- Minimum-return floor for the 3-day horizon, `MIN_RET_THRESHOLD = 2.0`
(`screen_top_stocks.py` line 392). -/
def MIN_RET_THRESHOLD : ℚ := 2.0

/-- Minimum-return floor for the 10-day horizon, `MIN_RET_10D = 4.0`
(`screen_top_stocks.py` line 305). -/
def MIN_RET_10D : ℚ := 4.0

/-- The scalar magnitude `t` computed inside `get_dynamic_threshold`
(`dynamic_threshold.py` lines 42-47): clamped linear interpolation from
`base_low` at `vol_low` to `base_high` at `vol_high`. -/
def threshold_t (base_low base_high vol_low vol_high v : ℚ) : ℚ :=
  if v ≤ vol_low then base_low
  else if vol_high ≤ v then base_high
  else base_low + (base_high - base_low) * (v - vol_low) / (vol_high - vol_low)

/-- `get_dynamic_threshold` (`dynamic_threshold.py` lines 22-49).
`vol_pct = none` models `np.isnan(vol_pct)`. -/
def get_dynamic_threshold (vol_pct : Option ℚ)
    (base_low base_high vol_low vol_high : ℚ) : ℚ × ℚ :=
  match vol_pct with
  | none => (-1, 1)
  | some v =>
    if v ≤ 0 then (-1, 1)
    else (-(threshold_t base_low base_high vol_low vol_high v),
          threshold_t base_low base_high vol_low vol_high v)

/-- One row of the enriched leading-instrument frame `us_e`
(`apply_dynamic_threshold` output plus `us_ret`): the daily fractional
return `us_ret` and rolling volatility `vol_20d`, each `none` when NaN. -/
structure USDay where
  ret : Option ℚ
  vol : Option ℚ
  deriving DecidableEq

/-- One row of the lagged-instrument frame `tw[["Open", "High", "Close"]]`. -/
structure Bar where
  op : ℚ
  hi : ℚ
  cl : ℚ
  deriving DecidableEq

/-- One record appended by `align_and_label_dynamic`
(`backtest_dynamic.py` lines 83-93), extended with the loop index `idx`
of the aligned calendar. -/
structure LabeledDay where
  idx : ℕ
  date : ℕ
  us_prev_ret : ℚ
  th_crash : ℚ
  th_surge : ℚ
  win : Bool
  ret_3d : ℚ
  is_crash : Bool
  is_surge : Bool
  deriving DecidableEq

/-- Loop body of `align_and_label_dynamic` (`backtest_dynamic.py`
lines 60-93) at aligned index `i`.  `common` is the sorted index
intersection; `us` and `tw` look a date up in the respective frame
(every date of `common` is in both indices, so the source's
`if d in ... else` guards never take their `else` branch). -/
def labelStep (common : List ℕ) (us : ℕ → USDay) (tw : ℕ → Bar) (i : ℕ) :
    Option LabeledDay :=
  if i = 0 ∨ common.length ≤ i + 2 then none
  else
    let prev_d := common.getD (i - 1) 0
    match (us prev_d).ret with
    | none => none
    | some r =>
      let th := get_dynamic_threshold (us prev_d).vol BASE_LOW BASE_HIGH VOL_LOW VOL_HIGH
      let d := common.getD i 0
      let buy_price := (tw d).op
      let d1 := common.getD i 0
      let d2 := common.getD (i + 1) 0
      let d3 := common.getD (i + 2) 0
      let high_3d := max ((tw d1).hi) (max ((tw d2).hi) ((tw d3).hi))
      let ret_3d := ((tw d3).cl / buy_price - 1) * 100
      let us_ret_pct := r * 100
      some { idx := i, date := d, us_prev_ret := us_ret_pct,
             th_crash := th.1, th_surge := th.2,
             win := decide (high_3d > buy_price), ret_3d := ret_3d,
             is_crash := decide (us_ret_pct < th.1),
             is_surge := decide (us_ret_pct > th.2) }

/-- `align_and_label_dynamic` (`backtest_dynamic.py` lines 50-94): iterate
over the aligned calendar, skipping `i = 0` and `i + 2 ≥ len(common)`. -/
def align_and_label_dynamic (common : List ℕ) (us : ℕ → USDay) (tw : ℕ → Bar) :
    List LabeledDay :=
  (List.range common.length).filterMap (labelStep common us tw)

/-- Regime label of one qualifying day. -/
inductive Regime
  | crash
  | surge
  | flat
  deriving DecidableEq

/-- The `if us_pct < th_c / elif us_pct > th_s / else` classification used
by every backtest loop. -/
def classify (us_pct th_c th_s : ℚ) : Regime :=
  if us_pct < th_c then Regime.crash
  else if us_pct > th_s then Regime.surge
  else Regime.flat

/-- One entry of a `crash_list` / `surge_list` / `flat_list`:
`{"win": win, "ret": ret}`. -/
structure TradeRec where
  win : Bool
  ret : ℚ
  deriving DecidableEq

/-- Loop body shared by `_fetch_and_backtest_by_days`
(`strategy_stats.py` lines 179-201) and `backtest_single_stock`
(`screen_top_stocks.py` lines 128-150): 3-day exit window
`common[i], common[i+1], common[i+2]`.  The emitted triple carries the
entry index `i` and the regime the record is appended under. -/
def simStep (common : List ℕ) (us : ℕ → USDay) (tw : ℕ → Bar) (i : ℕ) :
    Option (ℕ × Regime × TradeRec) :=
  let prev_d := common.getD (i - 1) 0
  match (us prev_d).ret with
  | none => none
  | some r =>
    let th := get_dynamic_threshold (us prev_d).vol BASE_LOW BASE_HIGH VOL_LOW VOL_HIGH
    let buy := (tw (common.getD i 0)).op
    let d1 := common.getD i 0
    let d2 := common.getD (i + 1) 0
    let d3 := common.getD (i + 2) 0
    let high_3d := max ((tw d1).hi) (max ((tw d2).hi) ((tw d3).hi))
    let ret_3d := ((tw d3).cl / buy - 1) * 100
    let us_pct := r * 100
    some (i, classify us_pct th.1 th.2, ⟨decide (high_3d > buy), ret_3d⟩)

/-- The 3-day-horizon simulation loop `for i in range(1, len(common) - 2)`
of `_fetch_and_backtest_by_days` / `backtest_single_stock`. -/
def simulate_by_days (common : List ℕ) (us : ℕ → USDay) (tw : ℕ → Bar) :
    List (ℕ × Regime × TradeRec) :=
  ((List.range (common.length - 2)).filter (fun i => decide (1 ≤ i))).filterMap
    (simStep common us tw)

/-- Python's `max` over a non-empty list (empty list mapped to 0; the
sources only apply it to non-empty windows). -/
def listMax (l : List ℚ) : ℚ :=
  match l with
  | [] => 0
  | x :: xs => xs.foldl max x

/-- Loop body of `_fetch_and_backtest_hold_days`
(`strategy_stats.py` lines 255-278) / `backtest_single_stock_10d`
(`screen_top_stocks.py` lines 217-240): exit window
`[common[i+j] for j in range(hold_days)]`. -/
def simHoldStep (hold_days : ℕ) (common : List ℕ) (us : ℕ → USDay)
    (tw : ℕ → Bar) (i : ℕ) : Option (ℕ × Regime × TradeRec) :=
  let prev_d := common.getD (i - 1) 0
  match (us prev_d).ret with
  | none => none
  | some r =>
    let th := get_dynamic_threshold (us prev_d).vol BASE_LOW BASE_HIGH VOL_LOW VOL_HIGH
    let buy := (tw (common.getD i 0)).op
    let hold_indices := (List.range hold_days).map (fun j => common.getD (i + j) 0)
    let high_hold := listMax (hold_indices.map (fun dd => (tw dd).hi))
    let close_last := (tw (hold_indices.getLastD 0)).cl
    let ret_hold := (close_last / buy - 1) * 100
    let us_pct := r * 100
    some (i, classify us_pct th.1 th.2, ⟨decide (high_hold > buy), ret_hold⟩)

/-- The `hold_days`-horizon simulation loop
`for i in range(1, len(common) - need_forward)` with
`need_forward = hold_days + 1`. -/
def simulate_hold_days (hold_days : ℕ) (common : List ℕ) (us : ℕ → USDay)
    (tw : ℕ → Bar) : List (ℕ × Regime × TradeRec) :=
  ((List.range (common.length - (hold_days + 1))).filter (fun i => decide (1 ≤ i))).filterMap
    (simHoldStep hold_days common us tw)

/-- The per-regime reducer `stats(lst)` (`strategy_stats.py` lines 203-209,
`screen_top_stocks.py` lines 152-158): `(count, win_rate, mean_return)`. -/
def stats (lst : List TradeRec) : ℕ × ℚ × ℚ :=
  if lst = [] then (0, 0, 0)
  else
    let n := lst.length
    let w := (lst.filter (fun x => x.win)).length
    let r := ((lst.map (fun x => x.ret)).sum) / n
    (n, (w : ℚ) / n * 100, r)

/-- The partition step of the backtest loops: the `crash_list` /
`surge_list` / `flat_list` that regime `g` accumulates from the
simulated outcomes. -/
def regimeOutcomes (sim : List (ℕ × Regime × TradeRec)) (g : Regime) :
    List TradeRec :=
  (sim.filter (fun x => x.2.1 == g)).map (fun x => x.2.2)

/-- The best-regime tag `best_strategy ∈ {"大跌買", "大漲買"}`. -/
inductive Strategy
  | crashBuy
  | surgeBuy
  deriving DecidableEq

/-- The per-instrument result dict built by `backtest_single_stock` /
`backtest_single_stock_10d` (`screen_top_stocks.py` lines 180-191,
269-279). -/
structure StockResult where
  name : ℕ
  crash_n : ℕ
  crash_wr : ℚ
  crash_ret : ℚ
  surge_n : ℕ
  surge_wr : ℚ
  surge_ret : ℚ
  flat_n : ℕ
  flat_wr : ℚ
  flat_ret : ℚ
  best_strategy : Strategy
  best_wr : ℚ
  best_ret : ℚ
  score : ℚ
  deriving DecidableEq

/-- The tail of `backtest_single_stock` (`screen_top_stocks.py`
lines 164-191): best-regime selection under the minimum-sample count 3,
composite score `best_wr * 0.4 + best_ret * 10 * 0.6`, `None` when both
regimes are under-sampled. -/
def mkResult (name : ℕ) (c_n : ℕ) (c_wr c_ret : ℚ) (s_n : ℕ) (s_wr s_ret : ℚ)
    (f_n : ℕ) (f_wr f_ret : ℚ) : Option StockResult :=
  if 3 ≤ c_n ∧ 3 ≤ s_n then
    let best_strategy := if c_ret > s_ret then Strategy.crashBuy else Strategy.surgeBuy
    let best_wr := if c_ret > s_ret then c_wr else s_wr
    let best_ret := max c_ret s_ret
    some { name := name,
           crash_n := c_n, crash_wr := c_wr, crash_ret := c_ret,
           surge_n := s_n, surge_wr := s_wr, surge_ret := s_ret,
           flat_n := f_n, flat_wr := f_wr, flat_ret := f_ret,
           best_strategy := best_strategy, best_wr := best_wr,
           best_ret := best_ret,
           score := best_wr * 0.4 + best_ret * 10 * 0.6 }
  else if 3 ≤ c_n then
    some { name := name,
           crash_n := c_n, crash_wr := c_wr, crash_ret := c_ret,
           surge_n := s_n, surge_wr := s_wr, surge_ret := s_ret,
           flat_n := f_n, flat_wr := f_wr, flat_ret := f_ret,
           best_strategy := Strategy.crashBuy, best_wr := c_wr,
           best_ret := c_ret,
           score := c_wr * 0.4 + c_ret * 10 * 0.6 }
  else if 3 ≤ s_n then
    some { name := name,
           crash_n := c_n, crash_wr := c_wr, crash_ret := c_ret,
           surge_n := s_n, surge_wr := s_wr, surge_ret := s_ret,
           flat_n := f_n, flat_wr := f_wr, flat_ret := f_ret,
           best_strategy := Strategy.surgeBuy, best_wr := s_wr,
           best_ret := s_ret,
           score := s_wr * 0.4 + s_ret * 10 * 0.6 }
  else none

/-- `backtest_single_stock` (`screen_top_stocks.py` lines 111-191) after
the data fetch: guard `len(common) < 10`, the 3-day simulation, the three
`stats` reductions and `mkResult`. -/
def backtest_single_stock_core (name : ℕ) (common : List ℕ) (us : ℕ → USDay)
    (tw : ℕ → Bar) : Option StockResult :=
  if common.length < 10 then none
  else
    let sim := simulate_by_days common us tw
    let c := stats (regimeOutcomes sim Regime.crash)
    let s := stats (regimeOutcomes sim Regime.surge)
    let f := stats (regimeOutcomes sim Regime.flat)
    mkResult name c.1 c.2.1 c.2.2 s.1 s.2.1 s.2.2 f.1 f.2.1 f.2.2

/-- `backtest_single_stock_10d` (`screen_top_stocks.py` lines 198-279)
after the data fetch: guard `len(common) < need_forward` with
`need_forward = 10 + 1`, the 10-day-hold simulation, the three `stats`
reductions and the same result tail. -/
def backtest_single_stock_10d_core (name : ℕ) (common : List ℕ)
    (us : ℕ → USDay) (tw : ℕ → Bar) : Option StockResult :=
  if common.length < 10 + 1 then none
  else
    let sim := simulate_hold_days 10 common us tw
    let c := stats (regimeOutcomes sim Regime.crash)
    let s := stats (regimeOutcomes sim Regime.surge)
    let f := stats (regimeOutcomes sim Regime.flat)
    mkResult name c.1 c.2.1 c.2.2 s.1 s.2.1 s.2.2 f.1 f.2.1 f.2.2

/-- One iteration of the recommendation loops (`screen_top_stocks.py`
lines 404-416 and 314-327): whether the record's name is appended to the
crash-buy list (first component) and to the surge-buy list (second). -/
def recommend_entry (min_ret : ℚ) (r : StockResult) : Bool × Bool :=
  if ¬ min_ret ≤ r.crash_ret ∧ ¬ min_ret ≤ r.surge_ret then (false, false)
  else if |r.crash_ret - r.surge_ret| < RET_DIFF_THRESHOLD ∧
          min_ret ≤ r.crash_ret ∧ min_ret ≤ r.surge_ret then (true, true)
  else if r.best_strategy = Strategy.crashBuy ∧ min_ret ≤ r.crash_ret then
    (true, false)
  else if min_ret ≤ r.surge_ret then (false, true)
  else (false, false)

/-- `get_recommendations` (`screen_top_stocks.py` lines 395-417): over the
top-20 records, collect crash-buy and surge-buy names under the floor
`MIN_RET_THRESHOLD` and the tie-break `RET_DIFF_THRESHOLD`. -/
def get_recommendations (results : List StockResult) : List ℕ × List ℕ :=
  (((results.take 20).filter (fun r => (recommend_entry MIN_RET_THRESHOLD r).1)).map
      (fun r => r.name),
   ((results.take 20).filter (fun r => (recommend_entry MIN_RET_THRESHOLD r).2)).map
      (fun r => r.name))

/-- `get_top20_recommendations_10d` (`screen_top_stocks.py`
lines 308-328): same loop with the configurable floor `min_ret`
(default `MIN_RET_10D`). -/
def get_top20_recommendations_10d (results : List StockResult)
    (min_ret : ℚ) : List ℕ × List ℕ :=
  (((results.take 20).filter (fun r => (recommend_entry min_ret r).1)).map
      (fun r => r.name),
   ((results.take 20).filter (fun r => (recommend_entry min_ret r).2)).map
      (fun r => r.name))

/-- Concrete leading-instrument data for witnesses: every date has a
defined +1% return and an undefined (NaN) rolling volatility. -/
def usConst : ℕ → USDay := fun _ => { ret := some (1/100), vol := none }

/-- Concrete lagged-instrument data for witnesses: every date has
open 100, high 101, close 99. -/
def twConst : ℕ → Bar := fun _ => { op := 100, hi := 101, cl := 99 }

/-- The record `align_and_label_dynamic` emits at aligned index 1 on
`usConst` / `twConst` data. -/
def c2day : LabeledDay :=
  { idx := 1, date := 1, us_prev_ret := 1, th_crash := -1, th_surge := 1,
    win := true, ret_3d := -1, is_crash := false, is_surge := false }

/-- The outcome `simulate_hold_days 10` emits at aligned index 1 on a
13-date calendar with `usConst` / `twConst` data. -/
def c10out : ℕ × Regime × TradeRec := (1, Regime.flat, ⟨true, -1⟩)

/-- A screening record with crash mean return 2.00 and surge mean
return 2.30 (both regimes with 3 samples), as `mkResult` builds it. -/
def c3rec : StockResult :=
  { name := 7, crash_n := 3, crash_wr := 50, crash_ret := 2,
    surge_n := 3, surge_wr := 60, surge_ret := 2.3,
    flat_n := 0, flat_wr := 0, flat_ret := 0,
    best_strategy := Strategy.surgeBuy, best_wr := 60, best_ret := 2.3,
    score := 60 * 0.4 + 2.3 * 10 * 0.6 }

/-- A screening record whose crash regime has only 2 samples but crash
mean return 2.2, with a well-sampled surge regime at 2.4, as `mkResult`
builds it. -/
def c6rec : StockResult :=
  { name := 9, crash_n := 2, crash_wr := 50, crash_ret := 2.2,
    surge_n := 5, surge_wr := 60, surge_ret := 2.4,
    flat_n := 0, flat_wr := 0, flat_ret := 0,
    best_strategy := Strategy.surgeBuy, best_wr := 60, best_ret := 2.4,
    score := 60 * 0.4 + 2.4 * 10 * 0.6 }

/-- A screening record passing the 10-day floor on the crash side only. -/
def c7rec : StockResult :=
  { name := 3, crash_n := 4, crash_wr := 75, crash_ret := 5,
    surge_n := 4, surge_wr := 40, surge_ret := 1,
    flat_n := 0, flat_wr := 0, flat_ret := 0,
    best_strategy := Strategy.crashBuy, best_wr := 75, best_ret := 5,
    score := 75 * 0.4 + 5 * 10 * 0.6 }

lemma threshold_t_of_le {bl bh vl vh v : ℚ} (h : v ≤ vl) :
    threshold_t bl bh vl vh v = bl := by
  simp [threshold_t, h]

lemma threshold_t_of_ge {bl bh vl vh v : ℚ} (h1 : ¬ v ≤ vl) (h2 : vh ≤ v) :
    threshold_t bl bh vl vh v = bh := by
  simp [threshold_t, h1, h2]

lemma threshold_t_of_mid {bl bh vl vh v : ℚ} (h1 : vl < v) (h2 : v < vh) :
    threshold_t bl bh vl vh v = bl + (bh - bl) * (v - vl) / (vh - vl) := by
  simp [threshold_t, not_le.mpr h1, not_le.mpr h2]

lemma interp_strict {bl bh vl vh v : ℚ} (hb : bl < bh) (hv : vl < vh)
    (h1 : vl < v) (h2 : v < vh) :
    bl < bl + (bh - bl) * (v - vl) / (vh - vl) ∧
    bl + (bh - bl) * (v - vl) / (vh - vl) < bh := by
  have hd : 0 < vh - vl := by linarith
  constructor
  · have hp : 0 < (bh - bl) * (v - vl) / (vh - vl) :=
      div_pos (mul_pos (by linarith) (by linarith)) hd
    linarith
  · rw [mul_div_assoc]
    have hs1 : (v - vl) / (vh - vl) < 1 := (div_lt_one hd).mpr (by linarith)
    have h3 := mul_lt_mul_of_pos_left hs1 (show (0:ℚ) < bh - bl by linarith)
    rw [mul_one] at h3
    linarith

lemma threshold_t_ge {bl bh vl vh : ℚ} (hb : bl ≤ bh) (hv : vl < vh) (v : ℚ) :
    bl ≤ threshold_t bl bh vl vh v := by
  unfold threshold_t
  split_ifs with h1 h2
  · exact le_refl bl
  · exact hb
  · push_neg at h1 h2
    have hd : 0 < vh - vl := by linarith
    have hp : 0 ≤ (bh - bl) * (v - vl) / (vh - vl) :=
      div_nonneg (mul_nonneg (by linarith) (by linarith)) hd.le
    linarith

lemma threshold_t_le {bl bh vl vh : ℚ} (hb : bl ≤ bh) (hv : vl < vh) (v : ℚ) :
    threshold_t bl bh vl vh v ≤ bh := by
  unfold threshold_t
  split_ifs with h1 h2
  · exact hb
  · exact le_refl bh
  · push_neg at h1 h2
    have hd : 0 < vh - vl := by linarith
    rw [mul_div_assoc]
    have hs1 : (v - vl) / (vh - vl) ≤ 1 := (div_le_one hd).mpr (by linarith)
    have h3 := mul_le_mul_of_nonneg_left hs1 (show (0:ℚ) ≤ bh - bl by linarith)
    rw [mul_one] at h3
    linarith

lemma threshold_t_mono {bl bh vl vh v1 v2 : ℚ} (hb : bl ≤ bh) (hv : vl < vh)
    (h12 : v1 ≤ v2) :
    threshold_t bl bh vl vh v1 ≤ threshold_t bl bh vl vh v2 := by
  by_cases c1 : v1 ≤ vl
  · rw [threshold_t_of_le c1]
    exact threshold_t_ge hb hv v2
  · by_cases c2 : vh ≤ v2
    · rw [threshold_t_of_ge (fun h => c1 (le_trans h12 h)) c2]
      exact threshold_t_le hb hv v1
    · push_neg at c1 c2
      rw [threshold_t_of_mid c1 (lt_of_le_of_lt h12 c2),
          threshold_t_of_mid (lt_of_lt_of_le c1 h12) c2]
      have hd : 0 < vh - vl := by linarith
      have h3 : (bh - bl) * (v1 - vl) ≤ (bh - bl) * (v2 - vl) :=
        mul_le_mul_of_nonneg_left (by linarith) (by linarith)
      have h4 : (bh - bl) * (v1 - vl) / (vh - vl) ≤ (bh - bl) * (v2 - vl) / (vh - vl) := by
        gcongr
      linarith

lemma get_dynamic_threshold_pos {bl bh vl vh v : ℚ} (hv : 0 < v) :
    get_dynamic_threshold (some v) bl bh vl vh =
      (-(threshold_t bl bh vl vh v), threshold_t bl bh vl vh v) := by
  simp [get_dynamic_threshold, not_le.mpr hv]

/-- Claim C1 (amended): for positive volatility `v` and calibration
constants `base_low < base_high`, `vol_low < vol_high`,
`get_dynamic_threshold` returns `(-base_low, base_low)` when `v ≤ vol_low`,
`(-base_high, base_high)` when `v ≥ vol_high`, and the linear interpolation
`(-t, t)` with `t = base_low + (base_high - base_low)*(v - vol_low)/(vol_high - vol_low)`
strictly between the bounds when `vol_low < v < vol_high`; the surge bound
is monotone non-decreasing in `v` over positive inputs. -/
theorem C1_threshold_piecewise (bl bh vl vh v : ℚ)
    (hb : bl < bh) (hv : vl < vh) (hvpos : 0 < v) :
    (v ≤ vl → get_dynamic_threshold (some v) bl bh vl vh = (-bl, bl)) ∧
    (vh ≤ v → get_dynamic_threshold (some v) bl bh vl vh = (-bh, bh)) ∧
    (vl < v → v < vh →
      get_dynamic_threshold (some v) bl bh vl vh =
        (-(bl + (bh - bl) * (v - vl) / (vh - vl)),
          bl + (bh - bl) * (v - vl) / (vh - vl)) ∧
      bl < bl + (bh - bl) * (v - vl) / (vh - vl) ∧
      bl + (bh - bl) * (v - vl) / (vh - vl) < bh) ∧
    (∀ v2, v ≤ v2 →
      (get_dynamic_threshold (some v) bl bh vl vh).2 ≤
        (get_dynamic_threshold (some v2) bl bh vl vh).2) := by
  refine ⟨fun h => ?_, fun h => ?_, fun h1 h2 => ?_, fun v2 h12 => ?_⟩
  · rw [get_dynamic_threshold_pos hvpos, threshold_t_of_le h]
  · rw [get_dynamic_threshold_pos hvpos,
        threshold_t_of_ge (not_le.mpr (lt_of_lt_of_le hv h)) h]
  · rw [get_dynamic_threshold_pos hvpos, threshold_t_of_mid h1 h2]
    exact ⟨rfl, interp_strict hb hv h1 h2⟩
  · rw [get_dynamic_threshold_pos hvpos,
        get_dynamic_threshold_pos (lt_of_lt_of_le hvpos h12)]
    exact threshold_t_mono hb.le hv h12

/-- Witness for C1: at the default constants and `v = 1` (strictly between
`vol_low = 0.6` and `vol_high = 1.4`), the interpolation branch holds
with its strict bounds. -/
theorem C1_threshold_piecewise_witness :
    get_dynamic_threshold (some 1) 0.7 1.8 0.6 1.4 =
      (-(0.7 + (1.8 - 0.7) * (1 - 0.6) / (1.4 - 0.6)),
        0.7 + (1.8 - 0.7) * (1 - 0.6) / (1.4 - 0.6)) ∧
    (0.7:ℚ) < 0.7 + (1.8 - 0.7) * (1 - 0.6) / (1.4 - 0.6) ∧
    (0.7:ℚ) + (1.8 - 0.7) * (1 - 0.6) / (1.4 - 0.6) < 1.8 :=
  (C1_threshold_piecewise 0.7 1.8 0.6 1.4 1 (by norm_num) (by norm_num)
    (by norm_num)).2.2.1 (by norm_num) (by norm_num)

/-- Counterexample to C1 as stated: the volatility input `v = 0` satisfies
`v ≤ vol_low`, but with the defaults the calculator returns the fallback
`(-1, 1)`, not `(-base_low, base_low) = (-0.7, 0.7)`. -/
theorem C1_counterexample :
    (0:ℚ) ≤ 0.6 ∧
    get_dynamic_threshold (some 0) 0.7 1.8 0.6 1.4 ≠ (-0.7, 0.7) := by
  constructor
  · norm_num
  · simp only [get_dynamic_threshold]
    norm_num

/-- Claim C5 (amended): the returned pair always has the form `(-f, f)` with
`f ≥ 0`; restricted to defined positive volatility inputs, `f` lies in
`[base_low, base_high]` and is monotone non-decreasing; for an undefined or
non-positive input, `f = 1`. -/
theorem C5_threshold_shape (bl bh vl vh : ℚ) (vol : Option ℚ)
    (hb0 : 0 < bl) (hb : bl < bh) (hv : vl < vh) :
    (∃ f, get_dynamic_threshold vol bl bh vl vh = (-f, f) ∧ 0 ≤ f) ∧
    (∀ v, vol = some v → 0 < v →
      bl ≤ (get_dynamic_threshold vol bl bh vl vh).2 ∧
      (get_dynamic_threshold vol bl bh vl vh).2 ≤ bh) ∧
    (∀ v, vol = some v → ¬ 0 < v →
      get_dynamic_threshold vol bl bh vl vh = (-1, 1)) ∧
    (vol = none → get_dynamic_threshold vol bl bh vl vh = (-1, 1)) ∧
    (∀ v1 v2, 0 < v1 → v1 ≤ v2 →
      (get_dynamic_threshold (some v1) bl bh vl vh).2 ≤
        (get_dynamic_threshold (some v2) bl bh vl vh).2) := by
  refine ⟨?_, fun v hval hvpos => ?_, fun v hval hvnp => ?_, fun hval => ?_,
    fun v1 v2 h1 h12 => ?_⟩
  · match vol with
    | none => exact ⟨1, rfl, by norm_num⟩
    | some v =>
      by_cases hvp : 0 < v
      · refine ⟨threshold_t bl bh vl vh v, get_dynamic_threshold_pos hvp, ?_⟩
        exact le_trans hb0.le (threshold_t_ge hb.le hv v)
      · exact ⟨1, by simp [get_dynamic_threshold, not_lt.mp hvp], by norm_num⟩
  · subst hval
    rw [get_dynamic_threshold_pos hvpos]
    exact ⟨threshold_t_ge hb.le hv v, threshold_t_le hb.le hv v⟩
  · subst hval
    simp [get_dynamic_threshold, not_lt.mp hvnp]
  · subst hval
    rfl
  · rw [get_dynamic_threshold_pos h1, get_dynamic_threshold_pos (lt_of_lt_of_le h1 h12)]
    exact threshold_t_mono hb.le hv h12

/-- Witness for C5: at the default constants, the surge bound is monotone
from `v = 1` to `v = 1.2` and the pair at `v = 1` has the `(-f, f)` shape. -/
theorem C5_threshold_shape_witness :
    (get_dynamic_threshold (some 1) 0.7 1.8 0.6 1.4).2 ≤
      (get_dynamic_threshold (some 1.2) 0.7 1.8 0.6 1.4).2 :=
  (C5_threshold_shape 0.7 1.8 0.6 1.4 (some 1) (by norm_num) (by norm_num)
    (by norm_num)).2.2.2.2 1 1.2 (by norm_num) (by norm_num)

/-- Counterexample to C5 as stated: with `base_low = 2 < base_high = 3`
(so `0 < base_low < base_high` and `vol_low < vol_high` hold), the input
`v = 0` yields surge bound `1 < base_low`, so `f` does not always lie in
`[base_low, base_high]` (and `f` is not monotone at the fallback jump). -/
theorem C5_counterexample :
    (0:ℚ) < 2 ∧ (2:ℚ) < 3 ∧ (0.6:ℚ) < 1.4 ∧
    (get_dynamic_threshold (some 0) 2 3 0.6 1.4).2 < 2 := by
  refine ⟨by norm_num, by norm_num, by norm_num, ?_⟩
  simp only [get_dynamic_threshold]
  norm_num

/-- Claim C8: for an undefined (NaN) or non-positive volatility input the
calculator returns exactly the fixed fallback pair `(-1, 1)` — a recovered
defined value, not an error. -/
theorem C8_fallback (vol : Option ℚ) (bl bh vl vh : ℚ)
    (h : vol = none ∨ ∃ v, vol = some v ∧ v ≤ 0) :
    get_dynamic_threshold vol bl bh vl vh = (-1, 1) := by
  rcases h with h | ⟨v, hv, hv0⟩
  · subst h; rfl
  · subst hv
    simp [get_dynamic_threshold, hv0]

/-- Witness for C8: the undefined input returns the fallback pair. -/
theorem C8_fallback_witness :
    get_dynamic_threshold none 0.7 1.8 0.6 1.4 = (-1, 1) :=
  C8_fallback none 0.7 1.8 0.6 1.4 (Or.inl rfl)

lemma mem_align_bounds {common : List ℕ} {us : ℕ → USDay} {tw : ℕ → Bar}
    {o : LabeledDay} (ho : o ∈ align_and_label_dynamic common us tw) :
    1 ≤ o.idx ∧ o.idx + 2 < common.length := by
  rw [align_and_label_dynamic, List.mem_filterMap] at ho
  obtain ⟨i, _, hf⟩ := ho
  simp only [labelStep] at hf
  split at hf
  · exact absurd hf (by simp)
  next hneg =>
    push_neg at hneg
    split at hf
    next => exact absurd hf (by simp)
    next r hr =>
      obtain rfl := Option.some.inj hf
      exact ⟨Nat.one_le_iff_ne_zero.mpr hneg.1, hneg.2⟩

lemma mem_sim_by_days_bounds {common : List ℕ} {us : ℕ → USDay} {tw : ℕ → Bar}
    {o : ℕ × Regime × TradeRec} (ho : o ∈ simulate_by_days common us tw) :
    1 ≤ o.1 ∧ o.1 + 2 < common.length := by
  rw [simulate_by_days, List.mem_filterMap] at ho
  obtain ⟨i, hi, hf⟩ := ho
  rw [List.mem_filter, List.mem_range] at hi
  simp only [simStep] at hf
  split at hf
  next => exact absurd hf (by simp)
  next r hr =>
    obtain rfl := Option.some.inj hf
    have h1 : 1 ≤ i := by simpa using hi.2
    have h2 : i < common.length - 2 := hi.1
    exact ⟨h1, by omega⟩

lemma mem_sim_hold_bounds {hold_days : ℕ} {common : List ℕ} {us : ℕ → USDay}
    {tw : ℕ → Bar} {o : ℕ × Regime × TradeRec}
    (ho : o ∈ simulate_hold_days hold_days common us tw) :
    1 ≤ o.1 ∧ o.1 + (hold_days + 1) < common.length := by
  rw [simulate_hold_days, List.mem_filterMap] at ho
  obtain ⟨i, hi, hf⟩ := ho
  rw [List.mem_filter, List.mem_range] at hi
  simp only [simHoldStep] at hf
  split at hf
  next => exact absurd hf (by simp)
  next r hr =>
    obtain rfl := Option.some.inj hf
    have h1 : 1 ≤ i := by simpa using hi.2
    have h2 : i < common.length - (hold_days + 1) := hi.1
    exact ⟨h1, by omega⟩

/-- Claim C2 (amended): on an aligned calendar of `N` dates, the 3-day
event labelers emit no outcome for the first date and none for the final
`horizon - 1 = 2` dates: every emitted entry index `i` satisfies
`1 ≤ i ≤ N - 3` (i.e. `i + 2 < N`), both in `align_and_label_dynamic` and
in the `_fetch_and_backtest_by_days` / `backtest_single_stock` loop. -/
theorem C2_entry_index_range (common : List ℕ) (us : ℕ → USDay) (tw : ℕ → Bar) :
    (∀ o ∈ align_and_label_dynamic common us tw,
      1 ≤ o.idx ∧ o.idx + 2 < common.length) ∧
    (∀ o ∈ simulate_by_days common us tw,
      1 ≤ o.1 ∧ o.1 + 2 < common.length) :=
  ⟨fun _ ho => mem_align_bounds ho, fun _ ho => mem_sim_by_days_bounds ho⟩

lemma align_eval4 :
    align_and_label_dynamic [0, 1, 2, 3] usConst twConst = [c2day] := by
  have h4 : List.range 4 = [0, 1, 2, 3] := by decide
  show (List.range ([0, 1, 2, 3] : List ℕ).length).filterMap _ = _
  rw [show ([0, 1, 2, 3] : List ℕ).length = 4 from rfl, h4]
  simp only [List.filterMap_cons, List.filterMap_nil, labelStep, usConst, twConst,
    get_dynamic_threshold, c2day]
  norm_num

/-- Witness for C2: on a 4-date calendar the labeler emits the concrete
record `c2day` and its index is in the proven range. -/
theorem C2_entry_index_range_witness :
    1 ≤ c2day.idx ∧ c2day.idx + 2 < ([0, 1, 2, 3] : List ℕ).length :=
  (C2_entry_index_range [0, 1, 2, 3] usConst twConst).1 c2day
    (by rw [align_eval4]; exact List.mem_singleton.mpr rfl)

/-- Counterexample to C2 as stated: on a 5-date aligned calendar the
3-day labeler (holding horizon 3) emits outcomes at entry indices 1 and
2, and `2` exceeds the claimed upper bound `N - horizon - 1 = 1` — the
labeler reserves only the final 2 dates, not the final `horizon` dates. -/
theorem C2_counterexample :
    (align_and_label_dynamic [0, 1, 2, 3, 4] usConst twConst).map LabeledDay.idx
      = [1, 2] ∧
    ¬ (2 ≤ ([0, 1, 2, 3, 4] : List ℕ).length - 3 - 1) := by
  decide

/-- Claim C4 (amended): `align_and_label_dynamic` returns the empty result
when the aligned calendar has fewer than `holding_horizon + 1 = 4` dates
(with exactly 4 it can already emit an outcome — see the counterexample);
the screening backtests do satisfy the claimed `holding_horizon + 2`
bound: `backtest_single_stock` returns `None` below 5 aligned dates
(its guard is `len(common) < 10`) and `backtest_single_stock_10d`
returns `None` below 12 aligned dates. -/
theorem C4_insufficient_alignment (name : ℕ) (common : List ℕ)
    (us : ℕ → USDay) (tw : ℕ → Bar) :
    (common.length < 4 → align_and_label_dynamic common us tw = []) ∧
    (common.length < 3 + 2 →
      backtest_single_stock_core name common us tw = none) ∧
    (common.length < 10 + 2 →
      backtest_single_stock_10d_core name common us tw = none) := by
  refine ⟨fun h => ?_, fun h => ?_, fun h => ?_⟩
  · rw [align_and_label_dynamic, List.filterMap_eq_nil_iff]
    intro i hi
    rw [List.mem_range] at hi
    simp only [labelStep]
    rw [if_pos (by omega)]
  · simp only [backtest_single_stock_core]
    rw [if_pos (by omega)]
  · simp only [backtest_single_stock_10d_core]
    by_cases h11 : common.length < 10 + 1
    · rw [if_pos h11]
    · rw [if_neg h11]
      have hlen : common.length = 11 := by omega
      have hsim : simulate_hold_days 10 common us tw = [] := by
        rw [simulate_hold_days, hlen]
        rfl
      rw [hsim]
      rfl

/-- Witness for C4: with 3 aligned dates both the labeler and the 3-day
screening core return the empty result. -/
theorem C4_insufficient_alignment_witness :
    align_and_label_dynamic [0, 1, 2] usConst twConst = [] ∧
    backtest_single_stock_core 1 [0, 1, 2] usConst twConst = none :=
  ⟨(C4_insufficient_alignment 1 [0, 1, 2] usConst twConst).1 (by decide),
   (C4_insufficient_alignment 1 [0, 1, 2] usConst twConst).2.1 (by decide)⟩

/-- Counterexample to C4 as stated: an aligned calendar of 4 dates
(fewer than `holding_horizon + 2 = 5`) on which `align_and_label_dynamic`
still produces an outcome. -/
theorem C4_counterexample :
    ([0, 1, 2, 3] : List ℕ).length < 3 + 2 ∧
    align_and_label_dynamic [0, 1, 2, 3] usConst twConst ≠ [] := by
  decide

/-- Claim C10: the 10-day-hold simulator emits outcomes only for entry
indices `1 ≤ i ≤ N - 12` (`i + 11 < N`): it reserves the final
`hold_days + 1 = 11` dates even though its exit window spans only
`i .. i + hold_days - 1` (`i + 10 ≤ N` holds for every emitted entry), so
the complete-window entries `N - 11` and `N - 10` are never simulated;
the 3-day routine by contrast reserves only the final 2 dates
(`i + 2 < N`). -/
theorem C10_trailing_reservation (common : List ℕ) (us : ℕ → USDay)
    (tw : ℕ → Bar) :
    (∀ o ∈ simulate_hold_days 10 common us tw,
      1 ≤ o.1 ∧ o.1 + 11 < common.length ∧ o.1 + 10 ≤ common.length ∧
      o.1 ≠ common.length - 11 ∧ o.1 ≠ common.length - 10) ∧
    (∀ o ∈ simulate_by_days common us tw,
      1 ≤ o.1 ∧ o.1 + 2 < common.length) := by
  constructor
  · intro o ho
    obtain ⟨h1, h2⟩ := mem_sim_hold_bounds ho
    exact ⟨h1, h2, by omega, by omega, by omega⟩
  · exact fun _ ho => mem_sim_by_days_bounds ho

lemma simulate_hold_eval13 :
    simulate_hold_days 10 [0, 1, 2, 3, 4, 5, 6, 7, 8, 9, 10, 11, 12]
      usConst twConst = [c10out] := by
  show ((List.range (13 - (10 + 1))).filter _).filterMap _ = _
  rw [show (List.range (13 - (10 + 1))).filter (fun i => decide (1 ≤ i)) = [1]
      from by decide]
  simp only [List.filterMap_cons, List.filterMap_nil, simHoldStep, usConst, twConst,
    get_dynamic_threshold, classify, listMax, c10out,
    show List.range 10 = [0, 1, 2, 3, 4, 5, 6, 7, 8, 9] from by decide,
    Function.comp]
  norm_num

/-- Witness for C10: on a 13-date calendar the 10-day simulator emits the
concrete outcome `c10out` at entry index 1, within the proven range. -/
theorem C10_trailing_reservation_witness :
    1 ≤ c10out.1 ∧
    c10out.1 + 11 < ([0, 1, 2, 3, 4, 5, 6, 7, 8, 9, 10, 11, 12] : List ℕ).length ∧
    c10out.1 + 10 ≤ ([0, 1, 2, 3, 4, 5, 6, 7, 8, 9, 10, 11, 12] : List ℕ).length ∧
    c10out.1 ≠ ([0, 1, 2, 3, 4, 5, 6, 7, 8, 9, 10, 11, 12] : List ℕ).length - 11 ∧
    c10out.1 ≠ ([0, 1, 2, 3, 4, 5, 6, 7, 8, 9, 10, 11, 12] : List ℕ).length - 10 :=
  (C10_trailing_reservation [0, 1, 2, 3, 4, 5, 6, 7, 8, 9, 10, 11, 12]
    usConst twConst).1 c10out
    (by rw [simulate_hold_eval13]; exact List.mem_singleton.mpr rfl)

lemma stats_perm {l1 l2 : List TradeRec} (h : l1.Perm l2) :
    stats l1 = stats l2 := by
  by_cases h1 : l1 = []
  · subst h1
    obtain rfl := h.nil_eq
    rfl
  · have h2 : l2 ≠ [] := by
      intro hh
      apply h1
      have hlen := h.length_eq
      rw [hh] at hlen
      exact List.length_eq_zero.mp hlen
    have hlen := h.length_eq
    have hfil := ((h.filter (fun x => x.win)).length_eq)
    have hsum := ((h.map (fun x => x.ret)).sum_eq)
    simp only [stats, if_neg h1, if_neg h2]
    rw [hlen, hfil, hsum]

/-- Claim C9: the aggregator `stats` returns `(0, 0, 0)` on the empty
partition, and on a non-empty partition returns its length, the win rate
`100 × wins / n` and the arithmetic mean of `return_pct`; the per-regime
aggregation of the partition by regime label depends only on the input
multiset (it is invariant under permutation of the outcome list). -/
theorem C9_aggregator_stats :
    (stats [] = (0, 0, 0)) ∧
    (∀ lst : List TradeRec, lst ≠ [] →
      stats lst = (lst.length,
        ((lst.filter (fun x => x.win)).length : ℚ) / lst.length * 100,
        ((lst.map (fun x => x.ret)).sum) / lst.length)) ∧
    (∀ s1 s2 : List (ℕ × Regime × TradeRec), s1.Perm s2 → ∀ g,
      stats (regimeOutcomes s1 g) = stats (regimeOutcomes s2 g)) := by
  refine ⟨rfl, fun lst h => ?_, fun s1 s2 h g => ?_⟩
  · simp only [stats, if_neg h]
  · have hp : (regimeOutcomes s1 g).Perm (regimeOutcomes s2 g) := by
      unfold regimeOutcomes
      exact (h.filter (fun x => x.2.1 == g)).map (fun x => x.2.2)
    exact stats_perm hp

/-- Witness for C9: a singleton all-win partition has win rate 100 and
mean 5, and the crash partition statistics are unchanged when the two
simulated outcomes are swapped. -/
theorem C9_aggregator_stats_witness :
    stats [⟨true, 5⟩] = (1, 100, 5) ∧
    stats (regimeOutcomes [(1, Regime.crash, ⟨true, 5⟩),
        (2, Regime.surge, ⟨false, 3⟩)] Regime.crash) =
      stats (regimeOutcomes [(2, Regime.surge, ⟨false, 3⟩),
        (1, Regime.crash, ⟨true, 5⟩)] Regime.crash) := by
  constructor
  · exact (C9_aggregator_stats.2.1 [⟨true, 5⟩] (by simp)).trans
      (by norm_num [List.filter])
  · exact C9_aggregator_stats.2.2 _ _ (List.Perm.swap _ _ _) Regime.crash

lemma recommend_entry_both {m : ℚ} {r : StockResult}
    (hc : m ≤ r.crash_ret) (hs : m ≤ r.surge_ret)
    (hd : |r.crash_ret - r.surge_ret| < RET_DIFF_THRESHOLD) :
    recommend_entry m r = (true, true) := by
  simp only [recommend_entry]
  rw [if_neg (fun h => h.1 hc), if_pos ⟨hd, hc, hs⟩]

lemma recommend_entry_crash_only {m : ℚ} {r : StockResult}
    (hc : m ≤ r.crash_ret)
    (hd : ¬ |r.crash_ret - r.surge_ret| < RET_DIFF_THRESHOLD)
    (hb : r.best_strategy = Strategy.crashBuy) :
    recommend_entry m r = (true, false) := by
  simp only [recommend_entry]
  rw [if_neg (fun h => h.1 hc), if_neg (fun h => hd h.1), if_pos ⟨hb, hc⟩]

lemma recommend_entry_surge_only {m : ℚ} {r : StockResult}
    (hs : m ≤ r.surge_ret)
    (hd : ¬ |r.crash_ret - r.surge_ret| < RET_DIFF_THRESHOLD)
    (hb : r.best_strategy ≠ Strategy.crashBuy) :
    recommend_entry m r = (false, true) := by
  simp only [recommend_entry]
  rw [if_neg (fun h => h.2 hs), if_neg (fun h => hd h.1),
      if_neg (fun h => hb h.1), if_pos hs]

lemma get_recommendations_singleton (r : StockResult) :
    get_recommendations [r] =
      ((if (recommend_entry MIN_RET_THRESHOLD r).1 then [r.name] else []),
       (if (recommend_entry MIN_RET_THRESHOLD r).2 then [r.name] else [])) := by
  cases h1 : (recommend_entry MIN_RET_THRESHOLD r).1 <;>
    cases h2 : (recommend_entry MIN_RET_THRESHOLD r).2 <;>
      simp [get_recommendations, h1, h2]

/-- Claim C3: for an instrument whose crash and surge statistics both pass
the sample filter (`n ≥ 3`) and the return floor, the synthesizer
recommends it under both regimes when `|crash_ret - surge_ret|` is below
the tie-break epsilon `0.5`, and otherwise only under the regime with the
higher mean return. -/
theorem C3_tiebreak (name : ℕ) (c_n : ℕ) (c_wr c_ret : ℚ) (s_n : ℕ)
    (s_wr s_ret : ℚ) (f_n : ℕ) (f_wr f_ret : ℚ) (r : StockResult)
    (hcn : 3 ≤ c_n) (hsn : 3 ≤ s_n)
    (hcret : MIN_RET_THRESHOLD ≤ c_ret) (hsret : MIN_RET_THRESHOLD ≤ s_ret)
    (hr : mkResult name c_n c_wr c_ret s_n s_wr s_ret f_n f_wr f_ret = some r) :
    (|c_ret - s_ret| < RET_DIFF_THRESHOLD →
      get_recommendations [r] = ([name], [name])) ∧
    (RET_DIFF_THRESHOLD ≤ |c_ret - s_ret| → s_ret < c_ret →
      get_recommendations [r] = ([name], [])) ∧
    (RET_DIFF_THRESHOLD ≤ |c_ret - s_ret| → c_ret < s_ret →
      get_recommendations [r] = ([], [name])) := by
  simp only [mkResult] at hr
  rw [if_pos ⟨hcn, hsn⟩] at hr
  obtain hlit := Option.some.inj hr
  have hcr : r.crash_ret = c_ret := by rw [← hlit]
  have hsr : r.surge_ret = s_ret := by rw [← hlit]
  have hnm : r.name = name := by rw [← hlit]
  have hbs : r.best_strategy =
      (if c_ret > s_ret then Strategy.crashBuy else Strategy.surgeBuy) := by
    rw [← hlit]
  refine ⟨fun hdiff => ?_, fun hdiff hgt => ?_, fun hdiff hlt => ?_⟩
  · have he := recommend_entry_both (m := MIN_RET_THRESHOLD) (r := r)
      (by rw [hcr]; exact hcret) (by rw [hsr]; exact hsret)
      (by rw [hcr, hsr]; exact hdiff)
    rw [get_recommendations_singleton, he]
    simp [hnm]
  · have hb : r.best_strategy = Strategy.crashBuy := by
      rw [hbs, if_pos hgt]
    have he := recommend_entry_crash_only (m := MIN_RET_THRESHOLD) (r := r)
      (by rw [hcr]; exact hcret)
      (by rw [hcr, hsr]; exact not_lt.mpr hdiff) hb
    rw [get_recommendations_singleton, he]
    simp [hnm]
  · have hb : r.best_strategy ≠ Strategy.crashBuy := by
      rw [hbs, if_neg (lt_asymm hlt)]
      decide
    have he := recommend_entry_surge_only (m := MIN_RET_THRESHOLD) (r := r)
      (by rw [hsr]; exact hsret)
      (by rw [hcr, hsr]; exact not_lt.mpr hdiff) hb
    rw [get_recommendations_singleton, he]
    simp [hnm]

/-- Witness for C3: the spec's own scenario — crash mean return 2.00,
surge mean return 2.30, difference 0.30 < 0.5 — is recommended under both
regimes. -/
theorem C3_tiebreak_witness :
    get_recommendations [c3rec] = ([7], [7]) :=
  (C3_tiebreak 7 3 50 2 3 60 2.3 0 0 0 c3rec (by norm_num) (by norm_num)
    (by norm_num [MIN_RET_THRESHOLD]) (by norm_num [MIN_RET_THRESHOLD])
    (by norm_num [mkResult, c3rec, max_def])).1
    (by rw [abs_sub_lt_iff]; norm_num [RET_DIFF_THRESHOLD])

/-- Claim C6 (amended): a regime with fewer than 3 samples is excluded
from the best-regime selection and the composite ranking score — if both
regimes are under-sampled the instrument is dropped from the run; the
per-regime recommendation lists, however, filter only on mean returns, so
an under-sampled regime can still be recommended via the tie-break path
(see the counterexample). -/
theorem C6_minimum_sample (name : ℕ) (c_n : ℕ) (c_wr c_ret : ℚ) (s_n : ℕ)
    (s_wr s_ret : ℚ) (f_n : ℕ) (f_wr f_ret : ℚ) :
    (c_n < 3 → s_n < 3 →
      mkResult name c_n c_wr c_ret s_n s_wr s_ret f_n f_wr f_ret = none) ∧
    (∀ r, mkResult name c_n c_wr c_ret s_n s_wr s_ret f_n f_wr f_ret = some r →
      c_n < 3 →
      r.best_strategy = Strategy.surgeBuy ∧ r.best_wr = s_wr ∧
      r.best_ret = s_ret ∧ r.score = s_wr * 0.4 + s_ret * 10 * 0.6) ∧
    (∀ r, mkResult name c_n c_wr c_ret s_n s_wr s_ret f_n f_wr f_ret = some r →
      s_n < 3 →
      r.best_strategy = Strategy.crashBuy ∧ r.best_wr = c_wr ∧
      r.best_ret = c_ret ∧ r.score = c_wr * 0.4 + c_ret * 10 * 0.6) := by
  refine ⟨fun hc hs => ?_, fun r hr hc => ?_, fun r hr hs => ?_⟩
  · simp only [mkResult]
    rw [if_neg (by omega), if_neg (by omega), if_neg (by omega)]
  · simp only [mkResult] at hr
    rw [if_neg (by omega), if_neg (by omega)] at hr
    by_cases hsn : 3 ≤ s_n
    · rw [if_pos hsn] at hr
      obtain rfl := Option.some.inj hr.symm
      exact ⟨rfl, rfl, rfl, rfl⟩
    · rw [if_neg hsn] at hr
      exact absurd hr (by simp)
  · simp only [mkResult] at hr
    rw [if_neg (by omega)] at hr
    by_cases hcn : 3 ≤ c_n
    · rw [if_pos hcn] at hr
      obtain rfl := Option.some.inj hr.symm
      exact ⟨rfl, rfl, rfl, rfl⟩
    · rw [if_neg hcn, if_neg (by omega)] at hr
      exact absurd hr (by simp)

/-- Witness for C6: the record with 2 crash samples and 5 surge samples
takes its best strategy, ranking statistics and score from the surge
regime only. -/
theorem C6_minimum_sample_witness :
    c6rec.best_strategy = Strategy.surgeBuy ∧ c6rec.best_wr = 60 ∧
    c6rec.best_ret = 2.4 ∧ c6rec.score = 60 * 0.4 + 2.4 * 10 * 0.6 :=
  (C6_minimum_sample 9 2 50 2.2 5 60 2.4 0 0 0).2.1 c6rec
    (by norm_num [mkResult, c6rec]) (by norm_num)

/-- Counterexample to C6 as stated: an instrument whose crash regime has
only 2 samples (below the minimum of 3) is nevertheless recommended under
the crash regime by the synthesizer, because the tie-break path of
`get_recommendations` tests mean returns but never sample counts. -/
theorem C6_counterexample :
    mkResult 9 2 50 2.2 5 60 2.4 0 0 0 = some c6rec ∧
    c6rec.crash_n < 3 ∧
    (get_recommendations [c6rec]).1 = [9] := by
  refine ⟨by norm_num [mkResult, c6rec], by norm_num [c6rec], ?_⟩
  have he := recommend_entry_both (m := MIN_RET_THRESHOLD) (r := c6rec)
    (by norm_num [c6rec, MIN_RET_THRESHOLD]) (by norm_num [c6rec, MIN_RET_THRESHOLD])
    (by show |c6rec.crash_ret - c6rec.surge_ret| < _
        rw [abs_sub_lt_iff]
        norm_num [c6rec, RET_DIFF_THRESHOLD])
  rw [get_recommendations_singleton, he]
  norm_num [c6rec]

lemma recommend_entry_fst_le {m : ℚ} {r : StockResult}
    (h : (recommend_entry m r).1 = true) : m ≤ r.crash_ret := by
  by_contra hc
  simp only [recommend_entry] at h
  split_ifs at h
  all_goals simp_all

lemma recommend_entry_snd_le {m : ℚ} {r : StockResult}
    (h : (recommend_entry m r).2 = true) : m ≤ r.surge_ret := by
  by_contra hc
  simp only [recommend_entry] at h
  split_ifs at h
  all_goals simp_all

/-- Claim C7: a name appears in a regime's recommendation list only via a
top-20 record whose mean return for that regime reaches the configured
floor — `MIN_RET_THRESHOLD = 2.0` for the 3-day synthesizer and the
`min_ret` parameter (default `MIN_RET_10D = 4.0`) for the 10-day one; in
particular a record with mean return 1.9 < 2.0 in a regime never puts its
name in that regime's list. -/
theorem C7_minimum_return (results : List StockResult) (min_ret : ℚ)
    (name : ℕ) :
    (name ∈ (get_recommendations results).1 →
      ∃ r ∈ results.take 20, r.name = name ∧ MIN_RET_THRESHOLD ≤ r.crash_ret) ∧
    (name ∈ (get_recommendations results).2 →
      ∃ r ∈ results.take 20, r.name = name ∧ MIN_RET_THRESHOLD ≤ r.surge_ret) ∧
    (name ∈ (get_top20_recommendations_10d results min_ret).1 →
      ∃ r ∈ results.take 20, r.name = name ∧ min_ret ≤ r.crash_ret) ∧
    (name ∈ (get_top20_recommendations_10d results min_ret).2 →
      ∃ r ∈ results.take 20, r.name = name ∧ min_ret ≤ r.surge_ret) := by
  refine ⟨fun h => ?_, fun h => ?_, fun h => ?_, fun h => ?_⟩
  · simp only [get_recommendations, List.mem_map, List.mem_filter] at h
    obtain ⟨r, ⟨hmem, hpred⟩, hname⟩ := h
    exact ⟨r, hmem, hname, recommend_entry_fst_le hpred⟩
  · simp only [get_recommendations, List.mem_map, List.mem_filter] at h
    obtain ⟨r, ⟨hmem, hpred⟩, hname⟩ := h
    exact ⟨r, hmem, hname, recommend_entry_snd_le hpred⟩
  · simp only [get_top20_recommendations_10d, List.mem_map, List.mem_filter] at h
    obtain ⟨r, ⟨hmem, hpred⟩, hname⟩ := h
    exact ⟨r, hmem, hname, recommend_entry_fst_le hpred⟩
  · simp only [get_top20_recommendations_10d, List.mem_map, List.mem_filter] at h
    obtain ⟨r, ⟨hmem, hpred⟩, hname⟩ := h
    exact ⟨r, hmem, hname, recommend_entry_snd_le hpred⟩

/-- Witness for C7: the record `c7rec` is crash-recommended by the 10-day
synthesizer at floor 4.0, so its crash mean return reaches the floor. -/
theorem C7_minimum_return_witness :
    ∃ r ∈ ([c7rec] : List StockResult).take 20,
      r.name = 3 ∧ MIN_RET_10D ≤ r.crash_ret :=
  (C7_minimum_return [c7rec] MIN_RET_10D 3).2.2.1 (by
    have he := recommend_entry_crash_only (m := MIN_RET_10D) (r := c7rec)
      (by norm_num [c7rec, MIN_RET_10D])
      (by show ¬ |c7rec.crash_ret - c7rec.surge_ret| < _
          rw [show c7rec.crash_ret - c7rec.surge_ret = 4 from by norm_num [c7rec],
              abs_of_nonneg (by norm_num)]
          norm_num [RET_DIFF_THRESHOLD])
      rfl
    simp only [get_top20_recommendations_10d, List.take, List.filter, he]
    exact List.mem_singleton.mpr rfl)

end StockTW
